import Mathlib

/-!
Verification of the Kale compiler core (`kale/core.py`, `kale/command_line.py`).

The stateful Python code is shallowly embedded: exceptions become `Except`
values, file-system and subprocess effects become explicit environment
records plus an event trace, and the collaborator modules that are not part
of the two source files (`kale.nbparser.parser`, `kale.static_analysis.dep_analysis`,
`kale.codegen.generate_code`) are parameters of the embedding (a record of
functions), so the theorems about `Kale.run` hold for every behaviour of
those collaborators.
-/

/-- Python exception values raised by the embedded code, tagged by class. -/
inductive KaleExc where
  | valueError (m : String)
  | typeError (m : String)
  | runtimeError (m : String)
  | keyError (m : String)
  | other (m : String)
deriving Repr, DecidableEq

/-- The message attached to an exception (what `logger.error(e)` reports). -/
def KaleExc.msg : KaleExc → String
  | .valueError m => m
  | .typeError m => m
  | .runtimeError m => m
  | .keyError m => m
  | .other m => m

/-- One member of the notebook snapshot returned by the `rok-gw` command
(`output['group_members']` in `create_cloned_volumes`). -/
structure SnapMember where
  object_name : String
  rok_url : String
deriving Repr, DecidableEq

/-- A volume dictionary as consumed by `core.py`.  Optional dictionary keys
become `Option` fields; the `type` key is `vtype` (keyword) and the
`annotation` key is `annot`. -/
structure Volume where
  name : Option String
  vtype : String
  mount_point : String
  size : String
  snapshot : Option Bool
  snapshot_name : Option String
  annot : Option (String × String)
deriving Repr, DecidableEq

/-- A statement of a pipeline step, abstracted to the name sets the static
analysis of the spec observes: the names it references and the names it
assigns at top level (references are evaluated before the assignment). -/
structure Stmt where
  reads : List String
  assigns : List String
deriving Repr, DecidableEq

/-- A node of the pipeline graph (spec section 3, StepNode). -/
structure StepNode where
  name : String
  stmts : List Stmt
  declaredDeps : List String
  ins : List String
  outs : List String
deriving Repr, DecidableEq

/-- The pipeline graph, with node set in first-appearance order. -/
abbrev PipelineGraph := List StepNode

/-- A pipeline parameter value: type tag and literal default. -/
structure ParamSpec where
  ptype : String
  value : String
deriving Repr, DecidableEq

/-- The keyword arguments of `generate_code.gen_kfp_code` at its call site in
`Kale.run`. -/
structure GenArgs where
  nb_graph : PipelineGraph
  experiment_name : String
  pipeline_name : String
  pipeline_description : String
  pipeline_parameters : List (String × ParamSpec)
  docker_base_image : String
  volumes : Option (List Volume)
  deploy_pipeline : Bool

/-- The collaborator modules imported by `core.py` but defined outside the
two source files under verification.  `Kale.run` is proved correct for every
instantiation of this record. -/
structure Collaborators where
  parse_notebook : String → Nat → Except KaleExc (PipelineGraph × String)
  pipeline_parameters_detection : String → Except KaleExc (List (String × ParamSpec))
  variables_dependencies_detection : PipelineGraph → List String → Except KaleExc PipelineGraph
  gen_kfp_code : GenArgs → Except KaleExc String

/-- A notebook volume as reported by `nb_utils.list_volumes` (mount path,
volume name, size). -/
structure NotebookVolume where
  mount_path : String
  volume_name : String
  size : String
deriving Repr, DecidableEq

/-- The outcome of a spawned subprocess (`subprocess.Popen` in `run_cmd`). -/
structure CmdResult where
  exit_code : Int
  out : String
  err : String
deriving Repr, DecidableEq

/-- Environment of `Kale.__init__`: existence of the source path, the
notebook volumes reported by `list_volumes`, namespace and hostname, and the
outcome of the `rok-gw` snapshot command.  `snapshot_members` is the decoded
`group_members` field of the command output (the JSON decoding itself is
modelled by the environment supplying the decoded value). -/
structure InitEnv where
  source_exists : Bool
  notebook_volumes : List NotebookVolume
  ns : String
  hostname : String
  snapshot_exit : Int
  snapshot_out : String
  snapshot_err : String
  snapshot_members : List SnapMember
deriving Repr, DecidableEq

/-- Outcomes of the external steps of `deploy_pipeline_to_kfp`: the fresh
temporary directory, importing the generated module, compiling the tarball,
and the three remote-service calls inside the `try` block. -/
structure DeployEnv where
  tmp_dir : String
  execModuleStep : Except KaleExc Unit
  compileStep : Except KaleExc Unit
  clientStep : Except KaleExc Unit
  uploadStep : Except KaleExc Unit
  experimentStep : Except KaleExc Unit
  runStep : Except KaleExc Unit

/-- Observable events of one compilation: stage invocations, the file write
of `save_pipeline`, the deployment steps, and error logging. -/
inductive Event where
  | validateE
  | parseE
  | extractE
  | depE (ignore : List String)
  | codegenE
  | saveE (path : String) (content : String)
  | logErrorE (m : String)
  | copyE (src : String) (dst : String)
  | execModuleE
  | compileTarE (fname : String)
  | clientE
  | uploadE (fname : String)
  | experimentE (ename : String)
  | runPipeE (rname : String)
  | removeTarE (fname : String)
deriving Repr, DecidableEq

/-- The `Kale` object state after `__init__` (`core.py` lines 30 to 94).
Logging state is omitted; logging is represented by trace events. -/
structure Kale where
  source_path : String
  output_path : String
  nbformat_version : Nat
  kfp_dns : Option String
  upload_pipeline : Bool
  run_pipeline : Bool
  experiment_name : String
  pipeline_name : String
  pipeline_description : String
  docker_base_image : String
  volumes : Option (List Volume)
deriving Repr, DecidableEq

/-- Drop all trailing occurrences of a character. -/
def dropTrailing (c : Char) (cs : List Char) : List Char :=
  (cs.reverse.dropWhile (fun ch => ch == c)).reverse

/-- Python `os.path.dirname` (posixpath): the prefix up to and including the
last slash, with trailing slashes stripped unless the prefix is all slashes. -/
def os_dirname (p : String) : String :=
  let cs := p.toList
  let head := (cs.reverse.dropWhile (fun ch => !(ch == '/'))).reverse
  if head.isEmpty then ""
  else if head.all (fun ch => ch == '/') then String.mk head
  else String.mk (dropTrailing '/' head)

/-- Python `os.path.join` (posixpath) for two components.  The prefix and
suffix tests are spelled out on character lists so that they compute by
kernel reduction. -/
def os_join (a b : String) : String :=
  if List.isPrefixOf "/".toList b.toList then b
  else if a = "" then b
  else if List.isSuffixOf "/".toList a.toList then a ++ b
  else a ++ "/" ++ b

/-- Lower-case alphanumeric character class `[a-z0-9]`. -/
def isKaleAl (c : Char) : Bool :=
  (('a' ≤ c) && (c ≤ 'z')) || (('0' ≤ c) && (c ≤ '9'))

/-- Character class `[-a-z0-9]`. -/
def isKaleMid (c : Char) : Bool :=
  isKaleAl c || (c == '-')

/-- Character class `[.\-a-z0-9]`. -/
def isK8sChar (c : Char) : Bool :=
  isKaleAl c || (c == '-') || (c == '.')

/-- Full match of the pipeline-name pattern of `validate_metadata`: a
nonempty string of characters from `[-a-z0-9]` that starts and ends with an
alphanumeric character (this is the language of the anchored regular
expression used by the source; the Python quirk that a dollar anchor also
matches before one trailing newline is not modelled, and the claims that
mention the pattern use this same matcher on both sides). -/
def kaleNameMatch (s : String) : Bool :=
  match s.toList with
  | [] => false
  | c :: rest => isKaleAl c && (c :: rest).all isKaleMid && isKaleAl ((c :: rest).getLastD 'a')

/-- Full match of the k8s resource-name pattern of `validate_metadata`: a
nonempty string of characters from `[.\-a-z0-9]`. -/
def k8sNameMatch (s : String) : Bool :=
  !(s.toList.isEmpty) && s.toList.all isK8sChar

/-- Error-message fragment `kale_name_msg` of `validate_metadata`. -/
def kaleNameMsg : String :=
  "must consist of lower case alphanumeric characters or -, and must start and end with an alphanumeric character."

/-- Error-message fragment `k8s_name_msg` of `validate_metadata`. -/
def k8sNameMsg : String :=
  "must consist of lower case alphanumeric characters, - or ."

/-- The snapshot condition of `validate_metadata` (`core.py` lines 110 and
111): the volume requests a snapshot and its `snapshot_name` is missing or
fails the k8s name pattern. -/
def snapshotBad (v : Volume) : Bool :=
  v.snapshot.getD false &&
    (match v.snapshot_name with
     | none => true
     | some s => !(k8sNameMatch s))

/-- The check `validate_metadata` performs on a single volume dictionary
(`core.py` lines 105 to 113). -/
def Kale.checkVolume (v : Volume) : Except KaleExc Unit :=
  match v.name with
  | none => .error (.valueError "Provide a valid name for every volume")
  | some n =>
    if k8sNameMatch n then
      if snapshotBad v then
        .error (.valueError ("Provide a valid snapshot resource name if you want to snapshot a volume. Snapshot resource name " ++ k8sNameMsg))
      else .ok ()
    else .error (.valueError ("PV/PVC resource name " ++ k8sNameMsg))

/-- The volume loop of `validate_metadata`, stopping at the first failing
volume as the Python `for` loop does. -/
def Kale.checkVolumes : List Volume → Except KaleExc Unit
  | [] => .ok ()
  | v :: vs =>
    match Kale.checkVolume v with
    | .error e => .error e
    | .ok _ => Kale.checkVolumes vs

/-- `Kale.validate_metadata` (`core.py` lines 96 to 113).  The pipeline name
is checked first; then the code iterates over `self.volumes`, which raises a
`TypeError` when `self.volumes` is `None`. -/
def Kale.validate_metadata (k : Kale) : Except KaleExc Unit :=
  if kaleNameMatch k.pipeline_name then
    match k.volumes with
    | none => .error (.typeError "NoneType object is not iterable")
    | some vs => Kale.checkVolumes vs
  else .error (.valueError ("Pipeline name  " ++ kaleNameMsg))

/-- `Kale.run_cmd` (`core.py` lines 115 to 126): raise `RuntimeError` on a
nonzero exit code, otherwise return the captured standard output. -/
def runCommand (cmd : String) (r : CmdResult) : Except KaleExc String :=
  if r.exit_code ≠ 0 then
    .error (.runtimeError ("Command " ++ cmd ++ " failed with exit code: " ++ toString r.exit_code))
  else .ok r.out

/-- `Kale._get_cloned_volume` (`core.py` lines 128 to 138): find the snapshot
member whose `object_name` equals the volume name and turn the volume into a
`new_pvc` with a rok origin annotation; `ValueError` when absent.  A missing
`name` key would raise a `KeyError` in the Python lookup. -/
def Kale._get_cloned_volume (volume : Volume) (snapshot_volumes : List SnapMember) : Except KaleExc Volume :=
  match volume.name with
  | none => .error (.keyError "name")
  | some nm =>
    match snapshot_volumes.find? (fun s => s.object_name == nm) with
    | some snap => .ok { volume with vtype := "new_pvc", annot := some ("rok/origin", snap.rok_url) }
    | none => .error (.valueError ("Volume " ++ nm ++ " not found in notebook snapshot"))

/-- The Python `for` loop of `create_cloned_volumes`, which appends either
the original or the cloned volume and propagates the first exception. -/
def cloneLoop (members : List SnapMember) : List Volume → Except KaleExc (List Volume)
  | [] => .ok []
  | v :: vs =>
    match (if v.vtype == "clone" then Kale._get_cloned_volume v members else .ok v) with
    | .error e => .error e
    | .ok v2 =>
      match cloneLoop members vs with
      | .error e => .error e
      | .ok rest => .ok (v2 :: rest)

/-- The `rok-gw` command line built by `create_cloned_volumes`. -/
def rokCmd (env : InitEnv) : String :=
  "rok-gw -o json object-register jupyter notebooks " ++ env.hostname ++
    " --no-interactive --param namespace=" ++ env.ns ++
    " --param commit_title=Snapshot of notebook " ++ env.hostname ++
    " --param commit_message=This is a snapshot of notebook " ++ env.hostname ++
    " in namespace " ++ env.ns

/-- `Kale.create_cloned_volumes` (`core.py` lines 140 to 166): when no volume
has type `clone` the function returns `None` (bare `return`); otherwise it
runs the snapshot command, decodes `group_members`, and replaces every clone
volume by its snapshotted PVC. -/
def Kale.create_cloned_volumes (env : InitEnv) (volumes : List Volume) : Except KaleExc (Option (List Volume)) :=
  if volumes.any (fun v => v.vtype == "clone") then
    match runCommand (rokCmd env) { exit_code := env.snapshot_exit, out := env.snapshot_out, err := env.snapshot_err } with
    | .error e => .error e
    | .ok _ =>
      match cloneLoop env.snapshot_members volumes with
      | .error e => .error e
      | .ok vs => .ok (some vs)
  else .ok none

/-- The volume dictionary appended for each notebook volume in
`Kale.__init__` (`core.py` lines 86 to 91). -/
def notebookVolumeEntry (nv : NotebookVolume) : Volume :=
  { mount_point := nv.mount_path, name := some nv.volume_name, size := nv.size,
    snapshot := some false, snapshot_name := none, vtype := "clone", annot := none }

/-- `Kale.__init__` (`core.py` lines 30 to 94): derive the output path from
the pipeline name next to the source document, fail when the source path
does not exist, append all notebook volumes as clone requests, and resolve
clones through `create_cloned_volumes` (whose failure propagates out of the
constructor). -/
def Kale.init (source_notebook_path experiment_name pipeline_name pipeline_descr docker_image : String)
    (volumes : Option (List Volume)) (notebook_version : Nat)
    (upload_pipeline run_pipeline : Bool) (kfp_dns : Option String)
    (env : InitEnv) : Except KaleExc Kale :=
  let output_path := os_join (os_dirname source_notebook_path) ("kfp_" ++ pipeline_name ++ ".kfp.py")
  if env.source_exists then
    let vols := (volumes.getD []) ++ env.notebook_volumes.map notebookVolumeEntry
    match Kale.create_cloned_volumes env vols with
    | .error e => .error e
    | .ok cloned =>
      .ok { source_path := source_notebook_path
            output_path := output_path
            nbformat_version := notebook_version
            kfp_dns := kfp_dns.map (fun dnsv => "http://" ++ dnsv ++ "/pipeline")
            upload_pipeline := upload_pipeline
            run_pipeline := run_pipeline
            experiment_name := experiment_name
            pipeline_name := pipeline_name
            pipeline_description := pipeline_descr
            docker_base_image := docker_image
            volumes := cloned }
  else .error (.valueError ("Path " ++ source_notebook_path ++ " does not exist"))

/-- `set(pipeline_parameters_dict.keys())`: the parameter names passed as
`ignore_symbols` at `core.py` line 180. -/
def paramNames (ps : List (String × ParamSpec)) : List String :=
  ps.map Prod.fst

/-- The keyword arguments `Kale.run` passes to `gen_kfp_code`
(`core.py` lines 185 to 192). -/
def Kale.genArgs (k : Kale) (g : PipelineGraph) (ps : List (String × ParamSpec)) : GenArgs :=
  { nb_graph := g
    experiment_name := k.experiment_name
    pipeline_name := k.pipeline_name
    pipeline_description := k.pipeline_description
    pipeline_parameters := ps
    docker_base_image := k.docker_base_image
    volumes := k.volumes
    deploy_pipeline := k.run_pipeline }

/-- The `try` block of `deploy_pipeline_to_kfp` covering the run phase
(`core.py` lines 236 to 243): experiment creation then the pipeline run,
executed only when `run_pipeline` is set. -/
def Kale.deployTryRun (k : Kale) (d : DeployEnv) (acc : List Event) : List Event × Except KaleExc Unit :=
  if k.run_pipeline then
    match d.experimentStep with
    | .error e => (acc ++ [Event.experimentE k.experiment_name], .error e)
    | .ok _ =>
      match d.runStep with
      | .error e => (acc ++ [Event.experimentE k.experiment_name, Event.runPipeE (k.pipeline_name ++ "_run")], .error e)
      | .ok _ => (acc ++ [Event.experimentE k.experiment_name, Event.runPipeE (k.pipeline_name ++ "_run")], .ok ())
  else (acc, .ok ())

/-- The `try` block of `deploy_pipeline_to_kfp` (`core.py` lines 227 to
243): client construction, optional upload, optional run. -/
def Kale.deployTry (k : Kale) (d : DeployEnv) : List Event × Except KaleExc Unit :=
  match d.clientStep with
  | .error e => ([Event.clientE], .error e)
  | .ok _ =>
    if k.upload_pipeline then
      match d.uploadStep with
      | .error e => ([Event.clientE, Event.uploadE (k.pipeline_name ++ ".pipeline.tar.gz")], .error e)
      | .ok _ => Kale.deployTryRun k d [Event.clientE, Event.uploadE (k.pipeline_name ++ ".pipeline.tar.gz")]
    else Kale.deployTryRun k d [Event.clientE]

/-- `Kale.deploy_pipeline_to_kfp` (`core.py` lines 206 to 250): copy the
generated script into a fresh temporary directory, import it, compile the
packaging tarball, then run the `try` block; an exception inside the `try`
block removes the tarball and is re-raised, while exceptions of the earlier
steps propagate directly. -/
def Kale.deploy_pipeline_to_kfp (k : Kale) (pipeline_source : String) (d : DeployEnv) : List Event × Except KaleExc Unit :=
  let dst := d.tmp_dir ++ "/pipeline_code.py"
  let tarName := k.pipeline_name ++ ".pipeline.tar.gz"
  match d.execModuleStep with
  | .error e => ([Event.copyE pipeline_source dst, Event.execModuleE], .error e)
  | .ok _ =>
    match d.compileStep with
    | .error e => ([Event.copyE pipeline_source dst, Event.execModuleE, Event.compileTarE tarName], .error e)
    | .ok _ =>
      match Kale.deployTry k d with
      | (evs, .error e) =>
        ([Event.copyE pipeline_source dst, Event.execModuleE, Event.compileTarE tarName] ++ evs ++ [Event.removeTarE tarName], .error e)
      | (evs, .ok _) =>
        ([Event.copyE pipeline_source dst, Event.execModuleE, Event.compileTarE tarName] ++ evs, .ok ())

/-- The pure value computed by the compilation stages of `Kale.run`
(`core.py` lines 172 to 192): validation, parsing, parameter extraction,
dependency analysis, code generation; the first exception aborts the chain. -/
def Kale.compileResult (k : Kale) (c : Collaborators) : Except KaleExc String :=
  match k.validate_metadata with
  | .error e => .error e
  | .ok _ =>
    match c.parse_notebook k.source_path k.nbformat_version with
    | .error e => .error e
    | .ok (g, blk) =>
      match c.pipeline_parameters_detection blk with
      | .error e => .error e
      | .ok ps =>
        match c.variables_dependencies_detection g (paramNames ps) with
        | .error e => .error e
        | .ok g2 => c.gen_kfp_code (Kale.genArgs k g2 ps)

/-- `Kale.run` (`core.py` lines 168 to 204): the staged compilation inside a
`try` block whose handler only logs, so the method itself never raises.  The
in-place mutation of the graph by `variables_dependencies_detection` is
modelled by threading the returned graph into `gen_kfp_code`.  The result
trace records every stage invocation, the `save_pipeline` write, and the
deployment steps. -/
def Kale.run (k : Kale) (c : Collaborators) (d : DeployEnv) : List Event × Except KaleExc Unit :=
  match k.validate_metadata with
  | .error e => ([Event.validateE, Event.logErrorE (KaleExc.msg e)], .ok ())
  | .ok _ =>
    match c.parse_notebook k.source_path k.nbformat_version with
    | .error e => ([Event.validateE, Event.parseE, Event.logErrorE (KaleExc.msg e)], .ok ())
    | .ok (g, blk) =>
      match c.pipeline_parameters_detection blk with
      | .error e => ([Event.validateE, Event.parseE, Event.extractE, Event.logErrorE (KaleExc.msg e)], .ok ())
      | .ok ps =>
        match c.variables_dependencies_detection g (paramNames ps) with
        | .error e =>
          ([Event.validateE, Event.parseE, Event.extractE, Event.depE (paramNames ps), Event.logErrorE (KaleExc.msg e)], .ok ())
        | .ok g2 =>
          match c.gen_kfp_code (Kale.genArgs k g2 ps) with
          | .error e =>
            ([Event.validateE, Event.parseE, Event.extractE, Event.depE (paramNames ps), Event.codegenE, Event.logErrorE (KaleExc.msg e)], .ok ())
          | .ok code =>
            let base := [Event.validateE, Event.parseE, Event.extractE, Event.depE (paramNames ps), Event.codegenE, Event.saveE k.output_path code]
            if k.upload_pipeline || k.run_pipeline then
              match Kale.deploy_pipeline_to_kfp k k.output_path d with
              | (devs, .error e) => (base ++ devs ++ [Event.logErrorE (KaleExc.msg e)], .ok ())
              | (devs, .ok _) => (base ++ devs, .ok ())
            else (base, .ok ())

/-- The sweep loop of `command_line.main` (`command_line.py` lines 64 to
75): the generated documents are compiled one after the other, and an
exception escaping one `run` call would abort the remaining iterations. -/
def sweepLoop (c : Collaborators) (d : DeployEnv) : List Kale → Except KaleExc (List (List Event))
  | [] => .ok []
  | k :: ks =>
    match Kale.run k c d with
    | (_, .error e) => .error e
    | (tr, .ok _) =>
      match sweepLoop c d ks with
      | .error e => .error e
      | .ok rest => .ok (tr :: rest)

/-- One full document compilation as driven by `command_line.main`:
constructing `Kale` (whose exceptions propagate) and then `run`. -/
def compileDocument (source_notebook_path experiment_name pipeline_name pipeline_descr docker_image : String)
    (volumes : Option (List Volume)) (notebook_version : Nat)
    (upload_pipeline run_pipeline : Bool) (kfp_dns : Option String)
    (env : InitEnv) (c : Collaborators) (d : DeployEnv) : List Event × Except KaleExc Unit :=
  match Kale.init source_notebook_path experiment_name pipeline_name pipeline_descr docker_image
      volumes notebook_version upload_pipeline run_pipeline kfp_dns env with
  | .error e => ([], .error e)
  | .ok k => Kale.run k c d

/-- The script writes of a trace: the `save_pipeline` events projected to
(path, content). -/
def savesOf (evs : List Event) : List (String × String) :=
  evs.filterMap fun ev =>
    match ev with
    | Event.saveE p s => some (p, s)
    | _ => none

/-- All file paths written by the events of a trace (`save_pipeline` writes
and the deployment copy destination). -/
def writeTargets (evs : List Event) : List String :=
  evs.filterMap fun ev =>
    match ev with
    | Event.saveE p _ => some p
    | Event.copyE _ dst => some dst
    | _ => none

/-- Whether an event is a compilation-stage event (as opposed to a
deployment or logging event). -/
def isCompileStageE : Event → Bool
  | Event.validateE => true
  | Event.parseE => true
  | Event.extractE => true
  | Event.depE _ => true
  | Event.codegenE => true
  | Event.saveE _ _ => true
  | _ => false

/-- The canonical compilation stage sequence of `Kale.run`, parameterised by
the ignore set handed to the dependency analyzer. -/
def stageList (ig : List String) : List Event :=
  [Event.validateE, Event.parseE, Event.extractE, Event.depE ig, Event.codegenE]

/-- The local read/write scan of one step (spec section 4.3, local pass):
walking statements in order with a locally-defined-name accumulator, a
reference counts as an external read only before a local assignment, and
every top-level assignment is an `outs` candidate. -/
def localScan (defined : List String) : List Stmt → List String × List String
  | [] => ([], [])
  | s :: rest =>
    let newReads := s.reads.filter (fun r => !(defined.contains r))
    let scanned := localScan (defined ++ s.assigns) rest
    (newReads ++ scanned.1, s.assigns ++ scanned.2)

/-- Modelled from the spec: `dep_analysis.variables_dependencies_detection`
is not among the source files (only its call site in `core.py` is).  Per the
spec (sections 4.2 and 4.3) it annotates each step with `ins` (names read
before local definition) and `outs` (names assigned at top level), and the
names in `ignore_symbols` are treated as always available: never unresolved
reads and never candidate `outs`.  The cross-step edge-resolution pass does
not affect `ins`/`outs` membership of ignored names and is not modelled. -/
def vdd_model (g : PipelineGraph) (ignore : List String) : PipelineGraph :=
  g.map fun st =>
    let scanned := localScan [] st.stmts
    { st with ins := scanned.1.filter (fun n => decide (¬ n ∈ ignore))
              outs := scanned.2.filter (fun n => decide (¬ n ∈ ignore)) }

/-- The condition under which `validate_metadata` rejects one volume
dictionary, stated as a boolean predicate. -/
def volumeBadB (v : Volume) : Bool :=
  match v.name with
  | none => true
  | some n => !(k8sNameMatch n) || snapshotBad v

/-- The replacement `create_cloned_volumes` applies to a volume when every
clone resolves: clones become `new_pvc` volumes annotated with the snapshot
rok url, other volumes pass through unchanged. -/
def resolveVolume (members : List SnapMember) (v : Volume) : Volume :=
  if v.vtype == "clone" then
    match v.name with
    | none => v
    | some nm =>
      match members.find? (fun s => s.object_name == nm) with
      | some snap => { v with vtype := "new_pvc", annot := some ("rok/origin", snap.rok_url) }
      | none => v
  else v

/-- Whether an event belongs to the deployment phase. -/
def isDeployE : Event → Bool
  | Event.copyE _ _ => true
  | Event.execModuleE => true
  | Event.compileTarE _ => true
  | Event.clientE => true
  | Event.uploadE _ => true
  | Event.experimentE _ => true
  | Event.runPipeE _ => true
  | Event.removeTarE _ => true
  | _ => false

/-- Membership in `saveE`/`copyE` write events. -/
def isWriteE : Event → Bool
  | Event.saveE _ _ => true
  | Event.copyE _ _ => true
  | _ => false

/-- A well-formed resolved volume used by the concrete compilations below. -/
def wVolume : Volume :=
  { name := some "vol-a", vtype := "new_pvc", mount_point := "/data", size := "5",
    snapshot := some false, snapshot_name := none, annot := none }

/-- A concrete `Kale` state with valid metadata and deployment disabled. -/
def wKale : Kale :=
  { source_path := "nb/test.ipynb", output_path := "nb/kfp_mypipe.kfp.py",
    nbformat_version := 4, kfp_dns := none, upload_pipeline := false, run_pipeline := false,
    experiment_name := "exp", pipeline_name := "mypipe", pipeline_description := "d",
    docker_base_image := "img", volumes := some [wVolume] }

/-- A one-step pipeline graph whose step reads the parameter `n`. -/
def wGraph : PipelineGraph :=
  [{ name := "a", stmts := [{ reads := ["n", "x"], assigns := ["x", "n"] }],
     declaredDeps := [], ins := [], outs := [] }]

/-- The parameter set extracted from the block `n = 5`. -/
def wParams : List (String × ParamSpec) := [("n", { ptype := "int", value := "5" })]

/-- Concrete collaborators: fixed parse result, the spec-modelled dependency
analysis, and a fixed generated text. -/
def wCollab : Collaborators :=
  { parse_notebook := fun _ _ => .ok (wGraph, "n = 5")
    pipeline_parameters_detection := fun _ => .ok wParams
    variables_dependencies_detection := fun gr ig => .ok (vdd_model gr ig)
    gen_kfp_code := fun _ => .ok "CODE" }

/-- Concrete collaborators whose document parser raises. -/
def wCollabFail : Collaborators :=
  { parse_notebook := fun _ _ => .error (.other "boom")
    pipeline_parameters_detection := fun _ => .ok []
    variables_dependencies_detection := fun gr _ => .ok gr
    gen_kfp_code := fun _ => .ok "" }

/-- A deployment environment in which every external step succeeds. -/
def wDeploy : DeployEnv :=
  { tmp_dir := "/tmp/x", execModuleStep := .ok (), compileStep := .ok (),
    clientStep := .ok (), uploadStep := .ok (), experimentStep := .ok (), runStep := .ok () }

/-- A second concrete `Kale` state: same compilation inputs as `wKale` but a
different upload flag and service address. -/
def wKale2 : Kale :=
  { wKale with upload_pipeline := true, kfp_dns := some "host:80/pipeline" }

/-- A concrete constructor environment: the source exists, one notebook
volume is mounted, and the snapshot command succeeds with a matching member. -/
def wInitEnv : InitEnv :=
  { source_exists := true,
    notebook_volumes := [{ mount_path := "/data", volume_name := "vol-a", size := "5" }],
    ns := "ns", hostname := "host", snapshot_exit := 0, snapshot_out := "", snapshot_err := "",
    snapshot_members := [{ object_name := "vol-a", rok_url := "u" }] }

/-- The `Kale` state `Kale.init` produces from `wInitEnv`. -/
def wKaleInit : Kale :=
  { source_path := "nb/test.ipynb", output_path := "nb/kfp_mypipe.kfp.py",
    nbformat_version := 4, kfp_dns := none, upload_pipeline := false, run_pipeline := false,
    experiment_name := "exp", pipeline_name := "mypipe", pipeline_description := "d",
    docker_base_image := "img",
    volumes := some [{ name := some "vol-a", vtype := "new_pvc", mount_point := "/data",
                       size := "5", snapshot := some false, snapshot_name := none,
                       annot := some ("rok/origin", "u") }] }

/-- A concrete `Kale` state with an invalid pipeline name. -/
def wKaleBad : Kale :=
  { wKale with pipeline_name := "My_Pipe" }

/-- A constructor environment with no notebook volumes mounted. -/
def wInitEnv2 : InitEnv :=
  { wInitEnv with notebook_volumes := [] }

/-- The `Kale` state `Kale.init` produces from `wInitEnv2` and one non-clone
caller volume: its `volumes` field is `none`. -/
def wKaleNone : Kale :=
  { source_path := "nb/test.ipynb", output_path := "nb/kfp_mypipe.kfp.py",
    nbformat_version := 4, kfp_dns := none, upload_pipeline := false, run_pipeline := false,
    experiment_name := "exp", pipeline_name := "mypipe", pipeline_description := "d",
    docker_base_image := "img", volumes := none }

/-- A caller-supplied clone volume request. -/
def wCloneVol : Volume :=
  { name := some "vol-a", vtype := "clone", mount_point := "/data", size := "5",
    snapshot := some false, snapshot_name := none, annot := none }

/-- A constructor environment whose snapshot command fails. -/
def wInitEnvFail : InitEnv :=
  { wInitEnv with snapshot_exit := 1 }

/-- A deployment environment whose tarball-compilation step raises. -/
def wDeployCompileFail : DeployEnv :=
  { wDeploy with compileStep := .error (.other "compile boom") }

/-- A deployment environment whose upload call raises. -/
def wDeployUploadFail : DeployEnv :=
  { wDeploy with uploadStep := .error (.other "upload boom") }

lemma writeTargets_eq_nil {evs : List Event} (h : evs.all (fun ev => !(isWriteE ev)) = true) :
    writeTargets evs = [] := by
  induction evs with
  | nil => rfl
  | cons ev rest ih =>
    rw [List.all_cons, Bool.and_eq_true] at h
    obtain ⟨h1, h2⟩ := h
    have hrest := ih h2
    cases ev <;>
      first
      | simpa [writeTargets, List.filterMap_cons] using hrest
      | simp [isWriteE] at h1

lemma deployTryRun_all (k : Kale) (d : DeployEnv) (acc : List Event) (p : Event → Bool)
    (hacc : acc.all p = true)
    (h1 : ∀ s, p (Event.experimentE s) = true) (h2 : ∀ s, p (Event.runPipeE s) = true) :
    ((Kale.deployTryRun k d acc).1).all p = true := by
  unfold Kale.deployTryRun
  split
  · split
    · simp [List.all_append, hacc, h1]
    · split <;> simp [List.all_append, hacc, h1, h2]
  · exact hacc

lemma deployTry_all (k : Kale) (d : DeployEnv) (p : Event → Bool)
    (hc : p Event.clientE = true) (hu : ∀ s, p (Event.uploadE s) = true)
    (h1 : ∀ s, p (Event.experimentE s) = true) (h2 : ∀ s, p (Event.runPipeE s) = true) :
    ((Kale.deployTry k d).1).all p = true := by
  unfold Kale.deployTry
  split
  · simp [hc]
  · split
    · split
      · simp [hc, hu]
      · exact deployTryRun_all k d _ p (by simp [hc, hu]) h1 h2
    · exact deployTryRun_all k d _ p (by simp [hc]) h1 h2

lemma deploy_all (k : Kale) (src : String) (d : DeployEnv) (p : Event → Bool)
    (hcopy : ∀ a b, p (Event.copyE a b) = true) (hexec : p Event.execModuleE = true)
    (hctar : ∀ s, p (Event.compileTarE s) = true) (hrm : ∀ s, p (Event.removeTarE s) = true)
    (hc : p Event.clientE = true) (hu : ∀ s, p (Event.uploadE s) = true)
    (h1 : ∀ s, p (Event.experimentE s) = true) (h2 : ∀ s, p (Event.runPipeE s) = true) :
    ((Kale.deploy_pipeline_to_kfp k src d).1).all p = true := by
  unfold Kale.deploy_pipeline_to_kfp
  split
  · simp [hcopy, hexec]
  · split
    · simp [hcopy, hexec, hctar]
    · split
      next evs e heq =>
        have hevs : evs.all p = true := by
          have h := deployTry_all k d p hc hu h1 h2
          rw [heq] at h
          exact h
        simp [List.all_append, hcopy, hexec, hctar, hrm, hevs]
      next evs u heq =>
        have hevs : evs.all p = true := by
          have h := deployTry_all k d p hc hu h1 h2
          rw [heq] at h
          exact h
        simp [List.all_append, hcopy, hexec, hctar, hevs]

lemma deploy_noCompileStage (k : Kale) (src : String) (d : DeployEnv) :
    ((Kale.deploy_pipeline_to_kfp k src d).1).all (fun ev => !(isCompileStageE ev)) = true :=
  deploy_all k src d _ (fun _ _ => rfl) rfl (fun _ => rfl) (fun _ => rfl) rfl
    (fun _ => rfl) (fun _ => rfl) (fun _ => rfl)

lemma run_snd_ok (k : Kale) (c : Collaborators) (d : DeployEnv) :
    (Kale.run k c d).2 = Except.ok () := by
  unfold Kale.run
  repeat' split
  all_goals rfl

/-- C1: for every successful compilation, `Kale.run` executes the stages in
exactly this order: document parsing (yielding the pipeline graph and the
parameters code block), parameter extraction from that block, dependency
analysis over the graph, code generation yielding the orchestration source
text, then saving that text; no later stage runs before an earlier one
completes, and everything after the save belongs to the deployment phase. -/
theorem C1_stage_order (k : Kale) (c : Collaborators) (d : DeployEnv)
    (g : PipelineGraph) (blk : String) (ps : List (String × ParamSpec))
    (g2 : PipelineGraph) (code : String)
    (hv : k.validate_metadata = .ok ())
    (hp : c.parse_notebook k.source_path k.nbformat_version = .ok (g, blk))
    (he : c.pipeline_parameters_detection blk = .ok ps)
    (hd : c.variables_dependencies_detection g (paramNames ps) = .ok g2)
    (hg : c.gen_kfp_code (Kale.genArgs k g2 ps) = .ok code) :
    ∃ tail, (Kale.run k c d).1 =
      [Event.validateE, Event.parseE, Event.extractE, Event.depE (paramNames ps),
       Event.codegenE, Event.saveE k.output_path code] ++ tail ∧
      tail.all (fun ev => !(isCompileStageE ev)) = true := by
  unfold Kale.run
  simp only [hv, hp, he, hd, hg]
  by_cases hfl : (k.upload_pipeline || k.run_pipeline) = true
  · rcases hdep : Kale.deploy_pipeline_to_kfp k k.output_path d with ⟨devs, res⟩
    have hall : devs.all (fun ev => !(isCompileStageE ev)) = true := by
      have hx := deploy_noCompileStage k k.output_path d
      rw [hdep] at hx
      exact hx
    cases res with
    | error e =>
      refine ⟨devs ++ [Event.logErrorE (KaleExc.msg e)], ?_, ?_⟩
      · simp [hfl, hdep]
      · simp only [List.all_append, Bool.and_eq_true]
        exact ⟨hall, by simp [isCompileStageE]⟩
    | ok u =>
      refine ⟨devs, ?_, hall⟩
      simp [hfl, hdep]
  · refine ⟨[], ?_, rfl⟩
    simp only [Bool.not_eq_true] at hfl
    simp [hfl]

/-- C3: for every compilation in which one of the stages (metadata
validation, parsing, parameter extraction, dependency analysis, code
generation) raises, the whole compilation aborts: the trace is a prefix of
the stage sequence followed by the logged error message, no generated script
is saved, and no deployment step is attempted. -/
theorem C3_abort_on_error (k : Kale) (c : Collaborators) (d : DeployEnv) (e : KaleExc)
    (h : Kale.compileResult k c = .error e) :
    ∃ n ig, n ≤ 5 ∧
      (Kale.run k c d).1 = (stageList ig).take n ++ [Event.logErrorE (KaleExc.msg e)] ∧
      (∀ p s, Event.saveE p s ∉ (Kale.run k c d).1) ∧
      ((Kale.run k c d).1).all (fun ev => !(isDeployE ev)) = true := by
  unfold Kale.compileResult at h
  unfold Kale.run
  split at h
  next e1 heq1 =>
    injection h with h2
    subst h2
    exact ⟨1, [], by omega, by simp [stageList], by simp, by simp [isDeployE]⟩
  next u heq1 =>
    split at h
    next e1 heq2 =>
      injection h with h2
      subst h2
      exact ⟨2, [], by omega, by simp [stageList], by simp, by simp [isDeployE]⟩
    next g blk heq2 =>
      split at h
      next e1 heq3 =>
        injection h with h2
        subst h2
        exact ⟨3, [], by omega, by simp [stageList], by simp, by simp [isDeployE]⟩
      next ps heq3 =>
        split at h
        next e1 heq4 =>
          injection h with h2
          subst h2
          exact ⟨4, paramNames ps, by omega, by simp [stageList], by simp, by simp [isDeployE]⟩
        next g2 heq4 =>
          refine ⟨5, paramNames ps, by omega, by simp [stageList, h], by simp [h], by simp [h, isDeployE]⟩

/-- C4: compilations of the documents produced by one parameter sweep are
independent: `Kale.run` never lets an exception escape (its result slot is
always `ok`), so the sweep loop of `command_line.main` compiles every
sibling document. -/
theorem C4_sweep_independent (ks : List Kale) (c : Collaborators) (d : DeployEnv) :
    (∀ k : Kale, (Kale.run k c d).2 = Except.ok ()) ∧
    sweepLoop c d ks = Except.ok (ks.map (fun k => (Kale.run k c d).1)) := by
  refine ⟨fun k => run_snd_ok k c d, ?_⟩
  induction ks with
  | nil => rfl
  | cons k ks ih =>
    have h := run_snd_ok k c d
    rcases hrun : Kale.run k c d with ⟨tr, res⟩
    rw [hrun] at h
    cases res with
    | error e => simp at h
    | ok u =>
      cases u
      unfold sweepLoop
      rw [hrun]
      simp [ih, hrun]

/-- Witness for C1: the concrete compilation runs the stages in order. -/
theorem C1_stage_order_witness :
    ∃ tail, (Kale.run wKale wCollab wDeploy).1 =
      [Event.validateE, Event.parseE, Event.extractE, Event.depE (paramNames wParams),
       Event.codegenE, Event.saveE wKale.output_path "CODE"] ++ tail ∧
      tail.all (fun ev => !(isCompileStageE ev)) = true :=
  C1_stage_order wKale wCollab wDeploy wGraph "n = 5" wParams
    (vdd_model wGraph (paramNames wParams)) "CODE" rfl rfl rfl rfl rfl

/-- Witness for C3: a failing parse aborts the concrete compilation. -/
theorem C3_abort_on_error_witness :
    ∃ n ig, n ≤ 5 ∧
      (Kale.run wKale wCollabFail wDeploy).1 =
        (stageList ig).take n ++ [Event.logErrorE (KaleExc.msg (.other "boom"))] ∧
      (∀ p s, Event.saveE p s ∉ (Kale.run wKale wCollabFail wDeploy).1) ∧
      ((Kale.run wKale wCollabFail wDeploy).1).all (fun ev => !(isDeployE ev)) = true :=
  C3_abort_on_error wKale wCollabFail wDeploy (.other "boom") rfl

lemma savesOf_eq_nil {evs : List Event} (h : evs.all (fun ev => !(isCompileStageE ev)) = true) :
    savesOf evs = [] := by
  induction evs with
  | nil => rfl
  | cons ev rest ih =>
    rw [List.all_cons, Bool.and_eq_true] at h
    obtain ⟨h1, h2⟩ := h
    have hrest := ih h2
    cases ev <;>
      first
      | simpa [savesOf, List.filterMap_cons] using hrest
      | simp [isCompileStageE] at h1

/-- What `Kale.run` writes through `save_pipeline`: exactly one script at the
output path holding the generated text when the compilation stages succeed,
nothing otherwise. -/
lemma run_savesOf (k : Kale) (c : Collaborators) (d : DeployEnv) :
    savesOf (Kale.run k c d).1 =
      (match Kale.compileResult k c with
       | .ok code => [(k.output_path, code)]
       | .error _ => []) := by
  unfold Kale.run Kale.compileResult
  split
  · simp [savesOf]
  · split
    · simp [savesOf]
    · split
      · simp [savesOf]
      · split
        · simp [savesOf]
        · split
          next e heq => simp [savesOf, heq]
          next code heq =>
            rw [heq]
            split
            · split
              next devs e heq =>
                have hnil : savesOf devs = [] := by
                  apply savesOf_eq_nil
                  have hx := deploy_noCompileStage k k.output_path d
                  rw [heq] at hx
                  exact hx
                have hnil2 : List.filterMap (fun ev =>
                    match ev with
                    | Event.saveE p s => some (p, s)
                    | _ => none) devs = [] := hnil
                simp [savesOf, List.filterMap_append, hnil2]
              next devs u heq =>
                have hnil : savesOf devs = [] := by
                  apply savesOf_eq_nil
                  have hx := deploy_noCompileStage k k.output_path d
                  rw [heq] at hx
                  exact hx
                have hnil2 : List.filterMap (fun ev =>
                    match ev with
                    | Event.saveE p s => some (p, s)
                    | _ => none) devs = [] := hnil
                simp [savesOf, List.filterMap_append, hnil2]
            · simp [savesOf]

/-- C2: the dependency analyzer is invoked with `ignore_symbols` equal to
the parameter names extracted from the parameters code block, and under the
spec-modelled analyzer no parameter name occurs in any step's inferred
`ins`, nor in its `outs` even when the step assigns that name. -/
theorem C2_params_ignored (k : Kale) (c : Collaborators) (d : DeployEnv)
    (g : PipelineGraph) (blk : String) (ps : List (String × ParamSpec))
    (hvdd : c.variables_dependencies_detection = fun gr ig => .ok (vdd_model gr ig))
    (hv : k.validate_metadata = .ok ())
    (hp : c.parse_notebook k.source_path k.nbformat_version = .ok (g, blk))
    (he : c.pipeline_parameters_detection blk = .ok ps) :
    Event.depE (paramNames ps) ∈ (Kale.run k c d).1 ∧
    ∀ st ∈ vdd_model g (paramNames ps), ∀ p ∈ paramNames ps, p ∉ st.ins ∧ p ∉ st.outs := by
  constructor
  · unfold Kale.run
    simp only [hv, hp, he, hvdd]
    split
    · simp
    · split
      · split <;> simp
      · simp
  · intro st hst p hpmem
    unfold vdd_model at hst
    rw [List.mem_map] at hst
    obtain ⟨st0, _, hdef⟩ := hst
    subst hdef
    constructor
    · intro hmem
      rw [List.mem_filter] at hmem
      exact (of_decide_eq_true hmem.2) hpmem
    · intro hmem
      rw [List.mem_filter] at hmem
      exact (of_decide_eq_true hmem.2) hpmem

/-- Witness for C2 at a concrete compilation whose parameters block defines
the single parameter `n`, read and reassigned by the step of the graph. -/
theorem C2_params_ignored_witness :
    Event.depE (paramNames wParams) ∈ (Kale.run wKale wCollab wDeploy).1 ∧
    ∀ st ∈ vdd_model wGraph (paramNames wParams), ∀ p ∈ paramNames wParams,
      p ∉ st.ins ∧ p ∉ st.outs :=
  C2_params_ignored wKale wCollab wDeploy wGraph "n = 5" wParams rfl rfl rfl rfl

/-- C8: compilation is deterministic: two `Kale` states that agree on every
input the compilation stages read (source path, notebook format version, the
metadata fed to validation and code generation, the volumes, and the
`run_pipeline` flag passed as `deploy_pipeline`) yield the same compilation
result, hence byte-identical generated source text and byte-identical saved
script contents; in particular compiling the same state twice agrees. -/
theorem C8_deterministic (k k2 : Kale) (c : Collaborators) (d : DeployEnv)
    (h1 : k.source_path = k2.source_path)
    (h2 : k.nbformat_version = k2.nbformat_version)
    (h3 : k.experiment_name = k2.experiment_name)
    (h4 : k.pipeline_name = k2.pipeline_name)
    (h5 : k.pipeline_description = k2.pipeline_description)
    (h6 : k.docker_base_image = k2.docker_base_image)
    (h7 : k.volumes = k2.volumes)
    (h8 : k.run_pipeline = k2.run_pipeline) :
    Kale.compileResult k c = Kale.compileResult k2 c ∧
    (savesOf (Kale.run k c d).1).map Prod.snd =
      (savesOf (Kale.run k2 c d).1).map Prod.snd := by
  have hcr : Kale.compileResult k c = Kale.compileResult k2 c := by
    cases k
    cases k2
    dsimp only at h1 h2 h3 h4 h5 h6 h7 h8
    subst h1
    subst h2
    subst h3
    subst h4
    subst h5
    subst h6
    subst h7
    subst h8
    rfl
  refine ⟨hcr, ?_⟩
  rw [run_savesOf, run_savesOf, hcr]
  cases Kale.compileResult k2 c <;> simp

/-- Witness for C8: `wKale` and `wKale2` compile to the same text. -/
theorem C8_deterministic_witness :
    Kale.compileResult wKale wCollab = Kale.compileResult wKale2 wCollab ∧
    (savesOf (Kale.run wKale wCollab wDeploy).1).map Prod.snd =
      (savesOf (Kale.run wKale2 wCollab wDeploy).1).map Prod.snd :=
  C8_deterministic wKale wKale2 wCollab wDeploy rfl rfl rfl rfl rfl rfl rfl rfl

/-- C7: for every successful compilation of a constructed `Kale`, exactly
one script is produced: a single write of exactly the generated source text
to `kfp_<pipeline_name>.kfp.py` in the source document's directory. -/
theorem C7_single_artifact (src exp pname descr img : String) (vols : Option (List Volume))
    (ver : Nat) (up runp : Bool) (dns : Option String) (env : InitEnv) (k : Kale)
    (hk : Kale.init src exp pname descr img vols ver up runp dns env = .ok k)
    (c : Collaborators) (d : DeployEnv) (code : String)
    (hc : Kale.compileResult k c = .ok code) :
    k.output_path = os_join (os_dirname src) ("kfp_" ++ pname ++ ".kfp.py") ∧
    savesOf (Kale.run k c d).1 = [(k.output_path, code)] := by
  constructor
  · simp only [Kale.init] at hk
    split at hk
    · split at hk
      · exact (Except.noConfusion hk)
      · injection hk with hk2
        subst hk2
        rfl
    · exact (Except.noConfusion hk)
  · rw [run_savesOf, hc]

/-- Witness for C7: the concrete compilation writes exactly one script. -/
theorem C7_single_artifact_witness :
    wKaleInit.output_path = os_join (os_dirname "nb/test.ipynb") ("kfp_" ++ "mypipe" ++ ".kfp.py") ∧
    savesOf (Kale.run wKaleInit wCollab wDeploy).1 = [(wKaleInit.output_path, "CODE")] :=
  C7_single_artifact "nb/test.ipynb" "exp" "mypipe" "d" "img" none 4 false false none
    wInitEnv wKaleInit rfl wCollab wDeploy "CODE" rfl

lemma checkVolume_ok_iff (v : Volume) :
    Kale.checkVolume v = .ok () ↔ volumeBadB v = false := by
  unfold Kale.checkVolume volumeBadB
  cases v.name with
  | none => simp
  | some n =>
    dsimp only
    by_cases hk : k8sNameMatch n = true
    · rw [if_pos hk]
      by_cases hs : snapshotBad v = true
      · rw [if_pos hs]
        simp [hk, hs]
      · rw [if_neg hs]
        simp only [Bool.not_eq_true] at hs
        simp [hk, hs]
    · rw [if_neg hk]
      simp only [Bool.not_eq_true] at hk
      simp [hk]

lemma checkVolume_error_shape (v : Volume) (e : KaleExc)
    (h : Kale.checkVolume v = .error e) : ∃ m, e = KaleExc.valueError m := by
  unfold Kale.checkVolume at h
  split at h
  · injection h with h2
    exact ⟨_, h2.symm⟩
  · split at h
    · split at h
      · injection h with h2
        exact ⟨_, h2.symm⟩
      · exact Except.noConfusion h
    · injection h with h2
      exact ⟨_, h2.symm⟩

lemma checkVolumes_error_iff (vs : List Volume) :
    (∃ m, Kale.checkVolumes vs = .error (KaleExc.valueError m)) ↔
      ∃ v ∈ vs, volumeBadB v = true := by
  induction vs with
  | nil => simp [Kale.checkVolumes]
  | cons v vs ih =>
    unfold Kale.checkVolumes
    split
    next e heq =>
      have hbad : volumeBadB v = true := by
        by_contra hb
        rw [Bool.not_eq_true] at hb
        rw [(checkVolume_ok_iff v).2 hb] at heq
        exact Except.noConfusion heq
      constructor
      · intro _
        exact ⟨v, List.mem_cons_self v vs, hbad⟩
      · intro _
        obtain ⟨m, hm⟩ := checkVolume_error_shape v e heq
        exact ⟨m, by rw [hm]⟩
    next u heq =>
      cases u
      have hgood : volumeBadB v = false := (checkVolume_ok_iff v).1 heq
      rw [ih]
      constructor
      · rintro ⟨x, hx, hb⟩
        exact ⟨x, List.mem_cons_of_mem _ hx, hb⟩
      · rintro ⟨x, hx, hb⟩
        rcases List.mem_cons.mp hx with h | h
        · subst h
          rw [hgood] at hb
          exact Bool.noConfusion hb
        · exact ⟨x, h, hb⟩

lemma validate_valueError_iff (k : Kale) :
    (∃ m, k.validate_metadata = .error (KaleExc.valueError m)) ↔
      (kaleNameMatch k.pipeline_name = false ∨
        ∃ v ∈ k.volumes.getD [], volumeBadB v = true) := by
  unfold Kale.validate_metadata
  split
  next hn =>
    split
    next hv =>
      rw [hv]
      simp [hn]
    next vs hv =>
      rw [hv]
      simp only [Option.getD_some]
      rw [checkVolumes_error_iff]
      simp [hn]
  next hn =>
    simp only [Bool.not_eq_true] at hn
    constructor
    · intro _
      exact Or.inl hn
    · intro _
      exact ⟨"Pipeline name  " ++ kaleNameMsg, rfl⟩

/-- C10: `validate_metadata` raises a `ValueError` exactly when the pipeline
name fails the kale name pattern, or some volume lacks a name, or some
volume name fails the k8s pattern, or some volume with snapshot enabled has
a missing or invalid snapshot name; and a failing validation makes
`Kale.run` stop before parsing, so no script is produced. -/
theorem C10_validate_iff (k : Kale) (c : Collaborators) (d : DeployEnv) :
    ((∃ m, k.validate_metadata = .error (KaleExc.valueError m)) ↔
      (kaleNameMatch k.pipeline_name = false ∨
        ∃ v ∈ k.volumes.getD [], volumeBadB v = true)) ∧
    (∀ e, k.validate_metadata = .error e →
      (Kale.run k c d).1 = [Event.validateE, Event.logErrorE (KaleExc.msg e)]) := by
  refine ⟨validate_valueError_iff k, ?_⟩
  intro e he
  unfold Kale.run
  rw [he]

/-- Witness for C10: the invalid pipeline name stops the concrete run at
validation, before any parsing or saving. -/
theorem C10_validate_iff_witness :
    (Kale.run wKaleBad wCollab wDeploy).1 =
      [Event.validateE,
       Event.logErrorE (KaleExc.msg (KaleExc.valueError ("Pipeline name  " ++ kaleNameMsg)))] :=
  (C10_validate_iff wKaleBad wCollab wDeploy).2
    (KaleExc.valueError ("Pipeline name  " ++ kaleNameMsg)) rfl

lemma create_cloned_volumes_none (env : InitEnv) (vols : List Volume)
    (h : ∀ v ∈ vols, v.vtype ≠ "clone") :
    Kale.create_cloned_volumes env vols = .ok none := by
  have hany : vols.any (fun v => v.vtype == "clone") = false := by
    rw [List.any_eq_false]
    intro v hv
    simpa using h v hv
  unfold Kale.create_cloned_volumes
  rw [hany]
  simp

lemma resolveVolume_step (members : List SnapMember) (v : Volume)
    (h : v.vtype = "clone" → ∃ nm, v.name = some nm ∧
      ∃ snap, members.find? (fun s => s.object_name == nm) = some snap) :
    (if v.vtype == "clone" then Kale._get_cloned_volume v members else .ok v) =
      .ok (resolveVolume members v) := by
  by_cases hc : (v.vtype == "clone") = true
  · rw [if_pos hc]
    obtain ⟨nm, hnm, snap, hfind⟩ := h (by simpa using hc)
    unfold Kale._get_cloned_volume resolveVolume
    rw [if_pos hc]
    simp only [hnm, hfind]
  · rw [if_neg hc]
    unfold resolveVolume
    rw [if_neg hc]

lemma cloneLoop_ok (members : List SnapMember) (vols : List Volume)
    (h : ∀ v ∈ vols, v.vtype = "clone" → ∃ nm, v.name = some nm ∧
      ∃ snap, members.find? (fun s => s.object_name == nm) = some snap) :
    cloneLoop members vols = .ok (vols.map (resolveVolume members)) := by
  induction vols with
  | nil => rfl
  | cons v vs ih =>
    unfold cloneLoop
    rw [resolveVolume_step members v (h v (List.mem_cons_self v vs)),
        ih (fun x hx => h x (List.mem_cons_of_mem _ hx))]
    rfl

lemma cloneLoop_error (members : List SnapMember) (vols : List Volume)
    (h : ∃ v ∈ vols, v.vtype = "clone" ∧ ∃ nm, v.name = some nm ∧
      members.find? (fun s => s.object_name == nm) = none) :
    ∃ e, cloneLoop members vols = .error e := by
  induction vols with
  | nil => simp at h
  | cons v0 vs ih =>
    unfold cloneLoop
    split
    next e heq => exact ⟨e, rfl⟩
    next v2 heq =>
      obtain ⟨v, hv, hcl, nm, hnm, hfind⟩ := h
      rcases List.mem_cons.mp hv with hh | hh
      · subst hh
        rw [if_pos (by simp [hcl])] at heq
        unfold Kale._get_cloned_volume at heq
        simp only [hnm, hfind] at heq
        exact Except.noConfusion heq
      · obtain ⟨e, he⟩ := ih ⟨v, hh, hcl, nm, hnm, hfind⟩
        exact ⟨e, by rw [he]⟩

lemma create_cloned_volumes_error (env : InitEnv) (vols : List Volume)
    (hclone : ∃ v ∈ vols, v.vtype = "clone")
    (hfail : env.snapshot_exit ≠ 0 ∨
      ∃ v ∈ vols, v.vtype = "clone" ∧ ∃ nm, v.name = some nm ∧
        env.snapshot_members.find? (fun s => s.object_name == nm) = none) :
    ∃ e, Kale.create_cloned_volumes env vols = .error e := by
  have hany : vols.any (fun v => v.vtype == "clone") = true := by
    rw [List.any_eq_true]
    obtain ⟨v, hv, hcl⟩ := hclone
    exact ⟨v, hv, by simp [hcl]⟩
  unfold Kale.create_cloned_volumes
  rw [if_pos hany]
  by_cases hexit : env.snapshot_exit = 0
  · rcases hfail with hx | hf
    · exact absurd hexit hx
    · unfold runCommand
      rw [if_neg (by simpa using hexit)]
      obtain ⟨e, he⟩ := cloneLoop_error env.snapshot_members vols hf
      exact ⟨e, by rw [he]⟩
  · unfold runCommand
    rw [if_pos (by simpa using hexit)]
    exact ⟨_, rfl⟩

/-- C9: `create_cloned_volumes` returns `None` (not the input list) whenever
no entry has type `clone`, so a constructed `Kale` has `volumes = None` even
when the caller supplied non-clone volumes and no notebook volume is
reported; and only when at least one clone entry is present (and resolves)
is the full list returned, with clones replaced by snapshotted PVCs. -/
theorem C9_none_without_clones (env : InitEnv) :
    (∀ vols : List Volume, (∀ v ∈ vols, v.vtype ≠ "clone") →
      Kale.create_cloned_volumes env vols = .ok none) ∧
    (∀ src exp pname descr img ver up runp dns (callerVols : List Volume) (k : Kale),
      env.notebook_volumes = [] → (∀ v ∈ callerVols, v.vtype ≠ "clone") →
      Kale.init src exp pname descr img (some callerVols) ver up runp dns env = .ok k →
      k.volumes = none) ∧
    (∀ vols : List Volume, (∃ v ∈ vols, v.vtype = "clone") → env.snapshot_exit = 0 →
      (∀ v ∈ vols, v.vtype = "clone" → ∃ nm, v.name = some nm ∧
        ∃ snap, env.snapshot_members.find? (fun s => s.object_name == nm) = some snap) →
      Kale.create_cloned_volumes env vols =
        .ok (some (vols.map (resolveVolume env.snapshot_members)))) := by
  refine ⟨fun vols h => create_cloned_volumes_none env vols h, ?_, ?_⟩
  · intro src exp pname descr img ver up runp dns callerVols k hnb hnc hk
    simp only [Kale.init] at hk
    rw [hnb] at hk
    simp only [List.map_nil, List.append_nil, Option.getD_some] at hk
    split at hk
    · rw [create_cloned_volumes_none env callerVols hnc] at hk
      injection hk with hk2
      subst hk2
      rfl
    · exact Except.noConfusion hk
  · intro vols hclone hexit hres
    have hany : vols.any (fun v => v.vtype == "clone") = true := by
      rw [List.any_eq_true]
      obtain ⟨v, hv, hcl⟩ := hclone
      exact ⟨v, hv, by simp [hcl]⟩
    unfold Kale.create_cloned_volumes
    rw [if_pos hany]
    unfold runCommand
    rw [if_neg (by simpa using hexit)]
    rw [cloneLoop_ok env.snapshot_members vols hres]

/-- Witness for C9: concrete non-clone input yields `none`, a concrete
constructed state has `volumes = none`, and a concrete clone input yields
the resolved list. -/
theorem C9_none_without_clones_witness :
    Kale.create_cloned_volumes wInitEnv2 [wVolume] = .ok none ∧
    wKaleNone.volumes = none ∧
    Kale.create_cloned_volumes wInitEnv [wCloneVol] =
      .ok (some ([wCloneVol].map (resolveVolume wInitEnv.snapshot_members))) :=
  ⟨(C9_none_without_clones wInitEnv2).1 [wVolume] (by decide),
   (C9_none_without_clones wInitEnv2).2.1 "nb/test.ipynb" "exp" "mypipe" "d" "img"
     4 false false none [wVolume] wKaleNone rfl (by decide) rfl,
   (C9_none_without_clones wInitEnv).2.2 [wCloneVol] (by decide) rfl
     (by
       intro v hv hcl
       rw [List.mem_singleton] at hv
       subst hv
       exact ⟨"vol-a", rfl, { object_name := "vol-a", rok_url := "u" }, rfl⟩)⟩

/-- C6: for every volume-resolution failure — the snapshot command exits
with a nonzero code, or some requested clone volume's name is absent from
the snapshot members — `Kale` construction raises, so the document
compilation driven by the command line produces no events at all: no
compilation stage runs and no generated code can reference the storage. -/
theorem C6_construction_aborts (src exp pname descr img : String)
    (vols : Option (List Volume)) (ver : Nat) (up runp : Bool) (dns : Option String)
    (env : InitEnv) (c : Collaborators) (d : DeployEnv)
    (hclone : ∃ v ∈ (vols.getD [] ++ env.notebook_volumes.map notebookVolumeEntry),
      v.vtype = "clone")
    (hfail : env.snapshot_exit ≠ 0 ∨
      ∃ v ∈ (vols.getD [] ++ env.notebook_volumes.map notebookVolumeEntry),
        v.vtype = "clone" ∧ ∃ nm, v.name = some nm ∧
          env.snapshot_members.find? (fun s => s.object_name == nm) = none) :
    ∃ e, Kale.init src exp pname descr img vols ver up runp dns env = .error e ∧
      compileDocument src exp pname descr img vols ver up runp dns env c d =
        ([], .error e) := by
  by_cases hsrc : env.source_exists = true
  · obtain ⟨e, he⟩ := create_cloned_volumes_error env _ hclone hfail
    refine ⟨e, ?_, ?_⟩
    · simp only [Kale.init]
      rw [if_pos hsrc, he]
    · simp only [compileDocument, Kale.init]
      rw [if_pos hsrc, he]
  · refine ⟨.valueError ("Path " ++ src ++ " does not exist"), ?_, ?_⟩
    · simp only [Kale.init]
      rw [if_neg hsrc]
    · simp only [compileDocument, Kale.init]
      rw [if_neg hsrc]

/-- Witness for C6: a failing snapshot command aborts the concrete
construction before any stage runs. -/
theorem C6_construction_aborts_witness :
    ∃ e, Kale.init "nb/test.ipynb" "exp" "mypipe" "d" "img" (some [wCloneVol]) 4 false false
        none wInitEnvFail = .error e ∧
      compileDocument "nb/test.ipynb" "exp" "mypipe" "d" "img" (some [wCloneVol]) 4 false false
        none wInitEnvFail wCollab wDeploy = ([], .error e) :=
  C6_construction_aborts "nb/test.ipynb" "exp" "mypipe" "d" "img" (some [wCloneVol]) 4 false
    false none wInitEnvFail wCollab wDeploy (by decide) (Or.inl (by decide))

lemma deployTry_writeTargets (k : Kale) (d : DeployEnv) :
    writeTargets (Kale.deployTry k d).1 = [] := by
  apply writeTargets_eq_nil
  exact deployTry_all k d _ rfl (fun _ => rfl) (fun _ => rfl) (fun _ => rfl)

/-- Counterexample to C5 as stated: an exception raised while compiling the
packaging tarball (the `compiler.Compiler().compile` call sits outside the
`try` block of `deploy_pipeline_to_kfp`) propagates without the tarball
being removed: no `removeTar` action occurs in the trace. -/
theorem C5_counterexample :
    (Kale.deploy_pipeline_to_kfp wKale wKale.output_path wDeployCompileFail).2 =
      .error (.other "compile boom") ∧
    Event.removeTarE (wKale.pipeline_name ++ ".pipeline.tar.gz") ∉
      (Kale.deploy_pipeline_to_kfp wKale wKale.output_path wDeployCompileFail).1 := by
  constructor
  · rfl
  · decide

/-- C5 (amended): for every deployment failure raised inside the `try`
block — creating the client, uploading, or running against the remote
service, i.e. after the packaging tarball was built successfully — the
generated source file at the output path is not written to, the tarball
named `<pipeline_name>.pipeline.tar.gz` is removed, and the exception is
re-raised; a failure while importing the generated module or while
compiling the tarball instead propagates without the removal. -/
theorem C5_upload_failure_cleanup (k : Kale) (src : String) (d : DeployEnv) (e : KaleExc)
    (hx : d.execModuleStep = .ok ()) (hcmp : d.compileStep = .ok ())
    (htry : (Kale.deployTry k d).2 = .error e)
    (htmp : d.tmp_dir ++ "/pipeline_code.py" ≠ k.output_path) :
    (Kale.deploy_pipeline_to_kfp k src d).2 = .error e ∧
    Event.removeTarE (k.pipeline_name ++ ".pipeline.tar.gz") ∈
      (Kale.deploy_pipeline_to_kfp k src d).1 ∧
    k.output_path ∉ writeTargets (Kale.deploy_pipeline_to_kfp k src d).1 := by
  unfold Kale.deploy_pipeline_to_kfp
  rw [hx, hcmp]
  rcases hdt : Kale.deployTry k d with ⟨evs, res⟩
  rw [hdt] at htry
  dsimp only at htry
  subst htry
  have hevs : writeTargets evs = [] := by
    have h := deployTry_writeTargets k d
    rw [hdt] at h
    exact h
  have hevs2 : List.filterMap (fun ev =>
      match ev with
      | Event.saveE p _ => some p
      | Event.copyE _ dst => some dst
      | _ => none) evs = [] := hevs
  refine ⟨rfl, ?_, ?_⟩
  · simp
  · intro hmem
    simp only [writeTargets, List.filterMap_cons, List.filterMap_append, hevs2] at hmem
    simp at hmem
    exact htmp hmem.symm

/-- Witness for the amended C5: an upload failure in the concrete deployment
removes the tarball, re-raises, and leaves the output path unwritten. -/
theorem C5_upload_failure_cleanup_witness :
    (Kale.deploy_pipeline_to_kfp wKale2 wKale2.output_path wDeployUploadFail).2 =
      .error (.other "upload boom") ∧
    Event.removeTarE (wKale2.pipeline_name ++ ".pipeline.tar.gz") ∈
      (Kale.deploy_pipeline_to_kfp wKale2 wKale2.output_path wDeployUploadFail).1 ∧
    wKale2.output_path ∉
      writeTargets (Kale.deploy_pipeline_to_kfp wKale2 wKale2.output_path wDeployUploadFail).1 :=
  C5_upload_failure_cleanup wKale2 wKale2.output_path wDeployUploadFail (.other "upload boom")
    rfl rfl rfl (by decide)

